import Mathlib

/-!
Shallow embedding of the VisionAI EDA workflow engine and retrieval subsystem
(`src/agents/data_visualization_agent.py`, `src/pipeline/rag_pipeline.py`,
`src/utils.py`), with theorems checking the natural-language specification
against the code.

The embedding models:
  * a loaded pandas DataFrame as its column metadata (name, dtype, whether
    `pd.to_datetime` succeeds on its values) plus a row count;
  * the langgraph `AgentState` as a record, with langgraph's merge semantics
    (`operator.add` lists append, plain keys overwrite when present);
  * the language model as an abstract function from prompt text to response
    text, with every node reporting how many model calls it issued;
  * the filesystem as predicates (`isFile`, path-existence for the Chroma
    index directory) and artifact writes as an explicit list of filenames.
-/

namespace VisionAI

/-- The pandas storage dtypes relevant to `_profile_data_for_plotting`:
`select_dtypes(include=["number"])` matches `numberD`,
`select_dtypes(include=["object"])` matches `objectD`,
`select_dtypes(include=["object", "category"])` matches `objectD` and
`categoryD`.  `boolD` is the pandas `bool` dtype (produced by `pd.read_csv`
for a column of True/False values), which none of those selections match. -/
inductive Dtype where
  | numberD
  | objectD
  | categoryD
  | boolD
deriving DecidableEq, Repr

/-- One column of a loaded DataFrame: its name, storage dtype, and whether
`pd.to_datetime` on its values succeeds (raises no ValueError/TypeError). -/
structure Column where
  name : String
  dtype : Dtype
  parsesDatetime : Bool
deriving DecidableEq, Repr

/-- A loaded pandas DataFrame, abstracted to its column metadata and row
count (`df.shape = (nrows, cols.length)`). -/
structure DataFrame where
  cols : List Column
  nrows : Nat
deriving DecidableEq, Repr

/-- The `datetime_cols` loop of `_profile_data_for_plotting`: iterate over the
columns of `df.select_dtypes(include=["object"])` and keep those on which
`pd.to_datetime(df[col])` succeeds. -/
def datetime_cols (df : DataFrame) : List String :=
  ((df.cols.filter (fun c => c.dtype = Dtype.objectD)).filter
    (fun c => c.parsesDatetime)).map Column.name

/-- The `numerical_cols` of `_profile_data_for_plotting`:
`df.select_dtypes(include=["number"]).columns.tolist()`. -/
def numerical_cols (df : DataFrame) : List String :=
  (df.cols.filter (fun c => c.dtype = Dtype.numberD)).map Column.name

/-- The `categorical_cols` of `_profile_data_for_plotting`:
`[col for col in df.select_dtypes(include=["object", "category"]).columns
if col not in datetime_cols]`. -/
def categorical_cols (df : DataFrame) : List String :=
  ((df.cols.filter
      (fun c => c.dtype = Dtype.objectD ∨ c.dtype = Dtype.categoryD)).map
    Column.name).filter (fun n => n ∉ datetime_cols df)

/-- The dict returned by `_profile_data_for_plotting`: the three
classification lists. -/
def profile_data_for_plotting (df : DataFrame) :
    List String × List String × List String :=
  (numerical_cols df, categorical_cols df, datetime_cols df)

/-- The language model, abstracted: maps the content of the
`SystemMessage` prompt to `response.content`. -/
def Llm : Type := String → String

/-- The retriever handle, abstracted: maps a query string to the
`page_content` of the retrieved documents. -/
def Retriever : Type := String → List String

/-- The `current_plot_context` value when nonempty: the dict
`\x7b"plot_type": ..., "details": ...\x7d`.  The Python empty dict is
modelled as `none` at use sites. -/
structure PlotContext where
  plot_type : String
  details : String
deriving DecidableEq, Repr

/-- The dict `_generate_caption` builds and returns inside its
`visualizations` list: keys `plot_type`, `details`, `caption`. -/
structure CaptionEntry where
  plot_type : String
  details : String
  caption : String
deriving DecidableEq, Repr

/-- The dict the three plot steps append in place to
`state["visualizations"]`: keys `title`, `path`, `description`. -/
structure PlotRecord where
  title : String
  path : String
  description : String
deriving DecidableEq, Repr

/-- An entry of the `visualizations` list.  Python stores plain dicts, so
entries of either key shape can coexist in the one list; the two shapes
that occur in the code are tagged here. -/
inductive VisEntry where
  | captionRecord (e : CaptionEntry)
  | plotRecord (r : PlotRecord)
deriving DecidableEq, Repr

/-- Reading the `caption` key of a visualizations entry
(`entry["caption"]`): present only on the shape `_generate_caption`
produces. -/
def VisEntry.captionKey : VisEntry → Option String
  | .captionRecord e => some e.caption
  | .plotRecord _ => none

/-- The partial dict a langgraph node returns.  `Option` fields are
overwrite-when-present keys; `insights` and `visualizations` are
`Annotated[..., operator.add]` keys, merged by list append, so an absent
key is the empty list.  `current_plot_context := some none` is the node
returning the key with the empty dict `\x7b\x7d`. -/
structure StateUpdate where
  numerical_cols : Option (List String)
  categorical_cols : Option (List String)
  datetime_cols : Option (List String)
  insights : List String
  visualizations : List VisEntry
  current_plot_context : Option (Option PlotContext)
deriving Repr

/-- The empty dict `\x7b\x7d` returned by several nodes. -/
def emptyUpdate : StateUpdate :=
  ⟨none, none, none, [], [], none⟩

/-- The langgraph `AgentState`. -/
structure AgentState where
  file_path : String
  target_column : Option String
  numerical_cols : List String
  categorical_cols : List String
  datetime_cols : List String
  retriever : Option Retriever
  insights : List String
  visualizations : List VisEntry
  current_plot_context : Option PlotContext

/-- langgraph channel merge: `operator.add` keys append, plain keys
overwrite when the returned dict carries them. -/
def applyUpdate (s : AgentState) (u : StateUpdate) : AgentState where
  file_path := s.file_path
  target_column := s.target_column
  numerical_cols := u.numerical_cols.getD s.numerical_cols
  categorical_cols := u.categorical_cols.getD s.categorical_cols
  datetime_cols := u.datetime_cols.getD s.datetime_cols
  retriever := s.retriever
  insights := s.insights ++ u.insights
  visualizations := s.visualizations ++ u.visualizations
  current_plot_context := u.current_plot_context.getD s.current_plot_context

/-- The f-string prompt of `_generate_caption` (lines 111-123). -/
def caption_prompt (plot_type details : String) : String :=
  "You are an expert data analyst providing insights for a presentation.\n" ++
  "A " ++ plot_type ++ " has been generated for " ++ details ++ ".\n" ++
  "Your task is to write a single, concise, and insightful caption for this plot.\n" ++
  "The caption should explain the key takeaway or what the visualization reveals about the data.\n" ++
  "Start your caption directly, without any preamble like \"This plot shows...\".\n\n" ++
  "Example for a histogram of \x27age\x27:\n" ++
  "\"The age distribution is skewed towards a younger demographic, with a significant peak in the 20-30 year old range.\"\n\n" ++
  "Example for a correlation heatmap:\n" ++
  "\"Price shows a strong positive correlation with sqft_living and grade, indicating these are key drivers of value, while yr_built has a weaker relationship.\""

/-- The method `_generate_caption` as a function of the `current_plot_context` value
it reads from its argument dict, returning the update dict and the number
of language-model calls issued.  Empty context (`if not context: return
\x7b\x7d`) is a no-op with zero model calls; otherwise one model call is made,
`caption = response.content.strip()`, and the returned dict appends one
`visualizations` entry and overwrites `current_plot_context` with `\x7b\x7d`.
(The `.get` defaults `"chart"`/`"the dataset"` are unreachable for every
context built in this codebase, which always carries both keys.) -/
def generate_caption (llm : Llm) (context : Option PlotContext) :
    StateUpdate × Nat :=
  match context with
  | none => (emptyUpdate, 0)
  | some ctx =>
    let caption := (llm (caption_prompt ctx.plot_type ctx.details)).trim
    (⟨none, none, none, [],
      [VisEntry.captionRecord ⟨ctx.plot_type, ctx.details, caption⟩],
      some none⟩, 1)

/-- The result of running one graph node: the state after the node's
in-place mutations (the plot steps append to `state["visualizations"]`
directly), the dict the node returns, the plot files written, and the
language-model calls issued. -/
structure NodeOutput where
  newState : AgentState
  update : StateUpdate
  artifacts : List String
  llmCalls : Nat

/-- Python repr of a list of strings, as interpolated into the RAG query
f-string (`f"... like \x7bnum_cols\x7d ..."`). -/
def pyStrListRepr (xs : List String) : String :=
  "[" ++ String.intercalate ", " (xs.map (fun s => "\x27" ++ s ++ "\x27")) ++ "]"

/-- The query built by `_get_contextual_insights`. -/
def insights_query (num_cols cat_cols : List String) : String :=
  "What are some common data analysis and visualization techniques " ++
  "for a dataset with numerical columns like " ++ pyStrListRepr num_cols ++
  " and categorical columns like " ++ pyStrListRepr cat_cols ++ "?"

/-- The synthesis prompt of `_get_contextual_insights`. -/
def synthesis_prompt (context : String) : String :=
  "Based on the following data analysis techniques, provide a concise summary of 2-3 key suggestions for an analyst.\n" ++
  "Focus on actionable advice.\n\n" ++
  "Retrieved Techniques:\n" ++ context ++ "\n\n" ++
  "Summary:"

/-- Node `_profile_data_for_plotting`: loads the dataset from
`state["file_path"]` and returns the three classification lists.  No
model call, no artifact. -/
def profile_data_node (load : String → DataFrame) (s : AgentState) :
    NodeOutput :=
  let df := load s.file_path
  ⟨s, ⟨some (numerical_cols df), some (categorical_cols df),
       some (datetime_cols df), [], [], none⟩, [], 0⟩

/-- Node `_get_contextual_insights`: with no retriever it appends the
sentinel insight and makes no model call; otherwise it queries the
retriever, joins the document contents with newlines, and issues one
model call whose stripped response is appended to `insights`. -/
def get_contextual_insights (llm : Llm) (s : AgentState) : NodeOutput :=
  match s.retriever with
  | none => ⟨s, ⟨none, none, none, ["Retriever not available."], [], none⟩, [], 0⟩
  | some retriever =>
    let query := insights_query s.numerical_cols s.categorical_cols
    let context := String.intercalate "\n" (retriever query)
    let insights_summary := (llm (synthesis_prompt context)).trim
    ⟨s, ⟨none, none, none, [insights_summary], [], none⟩, [], 1⟩

/-- Per-column body of the `_plot_univariate_numerical` loop: render
`hist_box_<col>.png` (opaque), call `_generate_caption` on a fresh
context dict, read `caption_state["visualizations"][0]["caption"]`, and
append the `\x7btitle, path, description\x7d` record in place.  The `getD ""`
fallback is unreachable: the context passed is nonempty, so the returned
`visualizations` list is a singleton carrying a `caption` key. -/
def numericalPlotLoop (llm : Llm) : List String → List VisEntry × List String × Nat
  | [] => ([], [], 0)
  | col :: rest =>
    let filename := "hist_box_" ++ col ++ ".png"
    let caption_state := generate_caption llm
      (some ⟨"Histogram and Box Plot", "the numerical column \x27" ++ col ++ "\x27"⟩)
    let caption := ((caption_state.1.visualizations.head?).bind VisEntry.captionKey).getD ""
    let entry := VisEntry.plotRecord ⟨"Distribution of " ++ col, filename, caption⟩
    let (es, fs, cs) := numericalPlotLoop llm rest
    (entry :: es, filename :: fs, caption_state.2 + cs)

/-- Node `_plot_univariate_numerical`.  Empty column list: returns
`\x7b"current_plot_context": \x7b\x7d\x7d`, writes nothing, no model call.
Otherwise loops over the numerical columns (the loaded dataset feeds only
the opaque rendering), appending one record per column in place, and
returns `\x7b\x7d`. -/
def plot_univariate_numerical (llm : Llm) (load : String → DataFrame)
    (s : AgentState) : NodeOutput :=
  let _df := load s.file_path
  if s.numerical_cols.isEmpty then
    ⟨s, ⟨none, none, none, [], [], some none⟩, [], 0⟩
  else
    let (entries, files, calls) := numericalPlotLoop llm s.numerical_cols
    ⟨{ s with visualizations := s.visualizations ++ entries },
     emptyUpdate, files, calls⟩

/-- Per-column body of the `_plot_univariate_categorical` loop. -/
def categoricalPlotLoop (llm : Llm) : List String → List VisEntry × List String × Nat
  | [] => ([], [], 0)
  | col :: rest =>
    let filename := "countplot_" ++ col ++ ".png"
    let caption_state := generate_caption llm
      (some ⟨"Bar Chart", "the categorical column \x27" ++ col ++ "\x27"⟩)
    let caption := ((caption_state.1.visualizations.head?).bind VisEntry.captionKey).getD ""
    let entry := VisEntry.plotRecord ⟨"Frequency of " ++ col, filename, caption⟩
    let (es, fs, cs) := categoricalPlotLoop llm rest
    (entry :: es, filename :: fs, caption_state.2 + cs)

/-- Node `_plot_univariate_categorical`.  Empty column list: returns
`\x7b\x7d`, writes nothing, no model call.  Otherwise appends one record per
categorical column in place and returns `\x7b\x7d`. -/
def plot_univariate_categorical (llm : Llm) (load : String → DataFrame)
    (s : AgentState) : NodeOutput :=
  let _df := load s.file_path
  if s.categorical_cols.isEmpty then
    ⟨s, emptyUpdate, [], 0⟩
  else
    let (entries, files, calls) := categoricalPlotLoop llm s.categorical_cols
    ⟨{ s with visualizations := s.visualizations ++ entries },
     emptyUpdate, files, calls⟩

/-- Node `_plot_correlation_heatmap`.  Fewer than 2 numerical columns:
returns `\x7b\x7d`, writes nothing, no model call.  Otherwise renders
`correlation_heatmap.png`, captions it, appends one record in place, and
returns `\x7b\x7d`. -/
def plot_correlation_heatmap (llm : Llm) (load : String → DataFrame)
    (s : AgentState) : NodeOutput :=
  let _df := load s.file_path
  if s.numerical_cols.length < 2 then
    ⟨s, emptyUpdate, [], 0⟩
  else
    let filename := "correlation_heatmap.png"
    let caption_state := generate_caption llm
      (some ⟨"Correlation Heatmap", "all numerical features"⟩)
    let caption := ((caption_state.1.visualizations.head?).bind VisEntry.captionKey).getD ""
    let entry := VisEntry.plotRecord ⟨"Correlation Heatmap", filename, caption⟩
    ⟨{ s with visualizations := s.visualizations ++ [entry] },
     emptyUpdate, [filename], caption_state.2⟩

/-- Node `generate_caption_for_heatmap`: `_generate_caption` applied to
the shared graph state. -/
def generate_caption_node (llm : Llm) (s : AgentState) : NodeOutput :=
  let (upd, calls) := generate_caption llm s.current_plot_context
  ⟨s, upd, [], calls⟩

/-- The six nodes registered by `_build_graph`. -/
inductive GraphNode where
  | profile_data
  | get_contextual_insights
  | plot_univariate_numerical
  | plot_univariate_categorical
  | plot_correlation_heatmap
  | generate_caption_for_heatmap
deriving DecidableEq, Repr, Fintype

/-- The edges added by `_build_graph`; `none` is the edge to `END`.
Each node has exactly one outgoing edge. -/
def edge : GraphNode → Option GraphNode
  | .profile_data => some .get_contextual_insights
  | .get_contextual_insights => some .plot_univariate_numerical
  | .plot_univariate_numerical => some .plot_univariate_categorical
  | .plot_univariate_categorical => some .plot_correlation_heatmap
  | .plot_correlation_heatmap => some .generate_caption_for_heatmap
  | .generate_caption_for_heatmap => none

/-- The entry point: `workflow.set_entry_point("profile_data")`. -/
def entry_point : GraphNode := GraphNode.profile_data

/-- The node sequence obtained by following `edge` from a node, with
enough fuel to cover the whole graph. -/
def traceFrom : Nat → GraphNode → List GraphNode
  | 0, _ => []
  | fuel + 1, n =>
    n :: (match edge n with
          | none => []
          | some m => traceFrom fuel m)

/-- The execution trace of the compiled graph: follow the edges from the
entry point. -/
def graphTrace : List GraphNode := traceFrom 6 entry_point

/-- Dispatch a graph node to its implementing method. -/
def runNode (llm : Llm) (load : String → DataFrame) (n : GraphNode)
    (s : AgentState) : NodeOutput :=
  match n with
  | .profile_data => profile_data_node load s
  | .get_contextual_insights => get_contextual_insights llm s
  | .plot_univariate_numerical => plot_univariate_numerical llm load s
  | .plot_univariate_categorical => plot_univariate_categorical llm load s
  | .plot_correlation_heatmap => plot_correlation_heatmap llm load s
  | .generate_caption_for_heatmap => generate_caption_node llm s

/-- Execute a node list in order, threading the state (in-place mutation
then channel merge of the returned dict), and collecting written
artifacts and model calls. -/
def execNodes (llm : Llm) (load : String → DataFrame) :
    List GraphNode → AgentState → AgentState × List String × Nat
  | [], s => (s, [], 0)
  | n :: rest, s =>
    let out := runNode llm load n s
    let s1 := applyUpdate out.newState out.update
    let (sf, files, calls) := execNodes llm load rest s1
    (sf, out.artifacts ++ files, out.llmCalls + calls)

/-- The typed Python exceptions the modelled paths raise.
`customException s` is `CustomException(e, sys)` wrapping an original
exception whose `str(e)` is `s`. -/
inductive PyError where
  | fileNotFoundError (msg : String)
  | connectionRefusedError (msg : String)
  | customException (wrapped : String)
deriving DecidableEq, Repr

/-- Here `startsWithList pat l` means: `pat` is a prefix of `l`. -/
def startsWithList : List Char → List Char → Bool
  | [], _ => true
  | _ :: _, [] => false
  | p :: ps, h :: hs => p = h && startsWithList ps hs

/-- Here `occursInList pat l` means: `pat` occurs contiguously in `l`. -/
def occursInList (pat : List Char) : List Char → Bool
  | [] => startsWithList pat []
  | h :: hs => startsWithList pat (h :: hs) || occursInList pat hs

/-- Python's substring test `pat in hay` on strings. -/
def strOccurs (pat hay : String) : Bool :=
  occursInList pat.toList hay.toList

/-- The diagnostic printed by `_check_ollama_connection` when the GET
against the Ollama base URL raises `ConnectionError`. -/
def ollama_connection_error_msg (base_url : String) : String :=
  "Connection to Ollama server at \x27" ++ base_url ++ "\x27 failed.\n" ++
  "Please ensure the Ollama application is running on your machine.\n" ++
  "You can start it by running the following command in your terminal:\n\n" ++
  "ollama serve\n"

/-- Outcome of `requests.get(base_url)` against the Ollama server. -/
inductive OllamaStatus where
  | reachable
  | unreachable
deriving DecidableEq, Repr

/-- The method `_check_ollama_connection` (run in the agent constructor, with the
default base URL): on `ConnectionError` it prints the actionable
diagnostic and raises `ConnectionRefusedError("Ollama server not
found.")`.  The error value is paired with the diagnostic printed on
that path (`none` when nothing is printed). -/
def check_ollama_connection (status : OllamaStatus) :
    Except (PyError × Option String) Unit :=
  match status with
  | .reachable => .ok ()
  | .unreachable =>
    .error (PyError.connectionRefusedError "Ollama server not found.",
            some (ollama_connection_error_msg "http://localhost:11434"))

/-- The `RAGPipeline.__init__` fields. -/
structure RAGPipeline where
  data_source : String
  chroma_db_path : String
  embedding_model : String
deriving DecidableEq, Repr

/-- The pipeline `RAGPipeline()` with the constructor defaults. -/
def RAGPipeline.default : RAGPipeline :=
  ⟨"src/pipeline/eda_knowledge_base.csv", "chroma_db", "nomic-embed-text"⟩

/-- Outcome of the embedding calls inside `Chroma.from_documents`:
either they succeed, or they raise a `ValueError` with text `errText`
(the missing-model case), or they raise some other exception with text
`errText` (e.g. the backend is unreachable). -/
inductive EmbedBackend where
  | ok
  | valueError (errText : String)
  | otherError (errText : String)
deriving DecidableEq, Repr

/-- The diagnostic printed by `_build_vector_db` when the `ValueError`
text contains `"not found, try pulling it first"`. -/
def model_not_found_msg (embedding_model : String) : String :=
  "The embedding model \x27" ++ embedding_model ++ "\x27 was not found by the Ollama server.\n" ++
  "Please pull the model by running the following command in your terminal:\n\n" ++
  "ollama pull " ++ embedding_model ++ "\n"

/-- The method `RAGPipeline._build_vector_db`, abstracted over the embedding
backend outcome (loading, chunking and persisting are opaque external
calls).  A `ValueError` whose text contains the missing-model marker
gets the actionable diagnostic printed before the raise; every failure
is re-raised as `CustomException(e, sys)`. -/
def build_vector_db (p : RAGPipeline) (backend : EmbedBackend) :
    Except (PyError × Option String) Unit :=
  match backend with
  | .ok => .ok ()
  | .valueError e =>
    if strOccurs "not found, try pulling it first" e then
      .error (PyError.customException e, some (model_not_found_msg p.embedding_model))
    else
      .error (PyError.customException e, none)
  | .otherError e => .error (PyError.customException e, none)

/-- The method `RAGPipeline.get_retriever`, over an abstract filesystem
(`fs path = true` iff `os.path.exists(path)`): if the Chroma directory
is absent, build it (persisting creates the directory); then open the
store and return its retriever (`dbQuery`, opaque).  The returned
triple also reports the possibly-extended filesystem and whether a
build was performed. -/
def get_retriever (p : RAGPipeline) (fs : String → Bool)
    (backend : EmbedBackend) (dbQuery : Retriever) :
    Except (PyError × Option String) (Retriever × (String → Bool) × Bool) :=
  if fs p.chroma_db_path then
    .ok (dbQuery, fs, false)
  else
    match build_vector_db p backend with
    | .error e => .error e
    | .ok () =>
      .ok (dbQuery, fun path => path = p.chroma_db_path || fs path, true)

/-- The dict `results["basic_info"]` of `run` (`memory_usage`, a pandas
accounting detail of the excluded loader, is omitted). -/
structure BasicInfo where
  rows : Nat
  columns : Nat
deriving DecidableEq, Repr

/-- The dict `run` returns. -/
structure RunResult where
  basic_info : BasicInfo
  visualizations : List VisEntry
deriving Repr

/-- The `FileNotFoundError` message raised by `run` on a bad path. -/
def run_invalid_path_msg (file_path : String) : String :=
  "The provided path is not a valid file: \x27" ++ file_path ++ "\x27\n" ++
  "Please provide the correct path to your CSV dataset.\n\n" ++
  "Example usage:\n" ++
  "agent.run(\x27path/to/your/data.csv\x27)"

/-- The method `EDAVisualizationAgent.run`, abstracted over: `isFile`
(`os.path.isfile`), the Chroma-path filesystem, the embedding backend,
the opaque retriever, the dataset loader, and the language model.  The
loader models `pd.read_csv` and can fail — e.g. with `PermissionError`
on an existing file without read permission; `get_dataset` re-raises
any such failure as `CustomException(e, sys)` (utils.py), which `run`
propagates.  The `os.path.isfile` validation runs first, and the
dataset load runs before the RAG pipeline is touched and before the
graph executes, so on either failure the artifact list is empty.  The
in-graph `get_dataset` calls re-read the same unchanged path, so they
are modelled as returning the frame the prologue loaded.  Returns the
result or the propagated error, paired with the plot artifacts
written. -/
def run (isFile : String → Bool) (chromaFs : String → Bool)
    (backend : EmbedBackend) (dbQuery : Retriever)
    (load : String → Except String DataFrame) (llm : Llm)
    (file_path : String) (target_column : Option String) :
    Except PyError RunResult × List String :=
  if isFile file_path = false then
    (.error (PyError.fileNotFoundError (run_invalid_path_msg file_path)), [])
  else
    match load file_path with
    | .error e => (.error (PyError.customException e), [])
    | .ok df =>
      match get_retriever RAGPipeline.default chromaFs backend dbQuery with
      | .error e => (.error e.1, [])
      | .ok (retr, _, _) =>
        let initial_state : AgentState :=
          ⟨file_path, target_column, [], [], [], some retr, [], [], none⟩
        let (final_state, artifacts, _calls) :=
          execNodes llm (fun _ => df) graphTrace initial_state
        (.ok ⟨⟨df.nrows, df.cols.length⟩, final_state.visualizations⟩,
         artifacts)

/-- Discriminates the typed path-validation error of `run`. -/
def PyError.isFileNotFound : PyError → Bool
  | .fileNotFoundError _ => true
  | .connectionRefusedError _ => false
  | .customException _ => false

/-! ## Theorems -/

theorem mem_numerical_cols {df : DataFrame} {n : String} :
    n ∈ numerical_cols df ↔
      ∃ c ∈ df.cols, c.name = n ∧ c.dtype = Dtype.numberD := by
  simp only [numerical_cols, List.mem_map, List.mem_filter,
    decide_eq_true_eq]
  constructor
  · rintro ⟨c, ⟨hc, hd⟩, hn⟩
    exact ⟨c, hc, hn, hd⟩
  · rintro ⟨c, hc, hn, hd⟩
    exact ⟨c, ⟨hc, hd⟩, hn⟩

theorem mem_datetime_cols {df : DataFrame} {n : String} :
    n ∈ datetime_cols df ↔
      ∃ c ∈ df.cols, c.name = n ∧ c.dtype = Dtype.objectD ∧
        c.parsesDatetime = true := by
  simp only [datetime_cols, List.mem_map, List.mem_filter,
    decide_eq_true_eq]
  constructor
  · rintro ⟨c, ⟨⟨hc, hd⟩, hp⟩, hn⟩
    exact ⟨c, hc, hn, hd, hp⟩
  · rintro ⟨c, hc, hn, hd, hp⟩
    exact ⟨c, ⟨⟨hc, hd⟩, hp⟩, hn⟩

theorem mem_categorical_cols {df : DataFrame} {n : String} :
    n ∈ categorical_cols df ↔
      (∃ c ∈ df.cols, c.name = n ∧
        (c.dtype = Dtype.objectD ∨ c.dtype = Dtype.categoryD)) ∧
      n ∉ datetime_cols df := by
  simp only [categorical_cols, List.mem_filter, List.mem_map,
    decide_eq_true_eq, decide_not, Bool.not_eq_true', decide_eq_false_iff_not]
  constructor
  · rintro ⟨⟨c, ⟨hc, hd⟩, hn⟩, hnotin⟩
    exact ⟨⟨c, hc, hn, hd⟩, hnotin⟩
  · rintro ⟨⟨c, hc, hn, hd⟩, hnotin⟩
    exact ⟨⟨c, ⟨hc, hd⟩, hn⟩, hnotin⟩

/-- C1 (amended): on every loaded dataset whose column names are distinct
(pandas guarantees uniqueness), the three lists produced by
`_profile_data_for_plotting` are pairwise disjoint, a textual (object)
column that parses as timestamps lands in `datetime_cols` and not in
`categorical_cols`, and the union of the three lists is exactly the set
of columns of numeric, object or category dtype — not the full column
set: a column of any other dtype (e.g. pandas `bool`) appears in none of
the three lists. -/
theorem C1_profile_partitions (df : DataFrame)
    (hnodup : (df.cols.map Column.name).Nodup) :
    ((numerical_cols df).Disjoint (categorical_cols df) ∧
     (numerical_cols df).Disjoint (datetime_cols df) ∧
     (categorical_cols df).Disjoint (datetime_cols df)) ∧
    (∀ n, (n ∈ numerical_cols df ∨ n ∈ categorical_cols df ∨
           n ∈ datetime_cols df) ↔
      ∃ c ∈ df.cols, c.name = n ∧
        (c.dtype = Dtype.numberD ∨ c.dtype = Dtype.objectD ∨
         c.dtype = Dtype.categoryD)) ∧
    (∀ c ∈ df.cols, c.dtype = Dtype.objectD → c.parsesDatetime = true →
      c.name ∈ datetime_cols df ∧ c.name ∉ categorical_cols df) := by
  have inj := List.inj_on_of_nodup_map hnodup
  refine ⟨⟨?_, ?_, ?_⟩, ?_, ?_⟩
  · intro n hnum hcat
    obtain ⟨c1, hc1, rfl, hd1⟩ := mem_numerical_cols.1 hnum
    obtain ⟨⟨c2, hc2, hn2, hd2⟩, -⟩ := mem_categorical_cols.1 hcat
    obtain rfl := inj hc2 hc1 hn2
    rcases hd2 with h | h <;> rw [hd1] at h <;> exact Dtype.noConfusion h
  · intro n hnum hdt
    obtain ⟨c1, hc1, rfl, hd1⟩ := mem_numerical_cols.1 hnum
    obtain ⟨c2, hc2, hn2, hd2, -⟩ := mem_datetime_cols.1 hdt
    obtain rfl := inj hc2 hc1 hn2
    rw [hd1] at hd2
    exact Dtype.noConfusion hd2
  · intro n hcat hdt
    exact (mem_categorical_cols.1 hcat).2 hdt
  · intro n
    constructor
    · rintro (h | h | h)
      · obtain ⟨c, hc, hn, hd⟩ := mem_numerical_cols.1 h
        exact ⟨c, hc, hn, Or.inl hd⟩
      · obtain ⟨⟨c, hc, hn, hd⟩, -⟩ := mem_categorical_cols.1 h
        exact ⟨c, hc, hn, Or.inr hd⟩
      · obtain ⟨c, hc, hn, hd, -⟩ := mem_datetime_cols.1 h
        exact ⟨c, hc, hn, Or.inr (Or.inl hd)⟩
    · rintro ⟨c, hc, hn, hnum | hobj | hcat⟩
      · exact Or.inl (mem_numerical_cols.2 ⟨c, hc, hn, hnum⟩)
      · by_cases hp : c.parsesDatetime = true
        · exact Or.inr (Or.inr (mem_datetime_cols.2 ⟨c, hc, hn, hobj, hp⟩))
        · refine Or.inr (Or.inl (mem_categorical_cols.2
            ⟨⟨c, hc, hn, Or.inl hobj⟩, fun hdt => ?_⟩))
          obtain ⟨c2, hc2, hn2, -, hp2⟩ := mem_datetime_cols.1 hdt
          obtain rfl := inj hc2 hc (hn2.trans hn.symm)
          exact hp hp2
      · refine Or.inr (Or.inl (mem_categorical_cols.2
          ⟨⟨c, hc, hn, Or.inr hcat⟩, fun hdt => ?_⟩))
        obtain ⟨c2, hc2, hn2, hd2, -⟩ := mem_datetime_cols.1 hdt
        obtain rfl := inj hc2 hc (hn2.trans hn.symm)
        rw [hcat] at hd2
        exact Dtype.noConfusion hd2
  · intro c hc hobj hp
    have hdt : c.name ∈ datetime_cols df :=
      mem_datetime_cols.2 ⟨c, hc, rfl, hobj, hp⟩
    exact ⟨hdt, fun hcat => (mem_categorical_cols.1 hcat).2 hdt⟩

/-- The dataset of the spec's example scenario: `age` numeric, `city`
textual and not date-like, `signup_date` textual and date-parsable. -/
def scenarioDF : DataFrame :=
  ⟨[⟨"age", Dtype.numberD, false⟩, ⟨"city", Dtype.objectD, false⟩,
    ⟨"signup_date", Dtype.objectD, true⟩], 3⟩

/-- Concrete instantiation of `C1_profile_partitions` on the spec's
example dataset. -/
theorem C1_profile_partitions_witness :
    (scenarioDF.cols.map Column.name).Nodup ∧
    (((numerical_cols scenarioDF).Disjoint (categorical_cols scenarioDF) ∧
      (numerical_cols scenarioDF).Disjoint (datetime_cols scenarioDF) ∧
      (categorical_cols scenarioDF).Disjoint (datetime_cols scenarioDF)) ∧
     (∀ n, (n ∈ numerical_cols scenarioDF ∨ n ∈ categorical_cols scenarioDF ∨
            n ∈ datetime_cols scenarioDF) ↔
       ∃ c ∈ scenarioDF.cols, c.name = n ∧
         (c.dtype = Dtype.numberD ∨ c.dtype = Dtype.objectD ∨
          c.dtype = Dtype.categoryD)) ∧
     (∀ c ∈ scenarioDF.cols, c.dtype = Dtype.objectD →
        c.parsesDatetime = true →
        c.name ∈ datetime_cols scenarioDF ∧
        c.name ∉ categorical_cols scenarioDF)) :=
  ⟨by decide, C1_profile_partitions scenarioDF (by decide)⟩

/-- A dataset with a single pandas-`bool` column, as `pd.read_csv`
produces for a column of True/False values. -/
def boolDF : DataFrame := ⟨[⟨"flag", Dtype.boolD, false⟩], 2⟩

/-- C1 counterexample: on a dataset whose only column has `bool` dtype,
all three lists of `_profile_data_for_plotting` are empty, so their
union misses the column `flag` and does not equal the full column set. -/
theorem C1_counterexample :
    profile_data_for_plotting boolDF = ([], [], []) ∧
    boolDF.cols.map Column.name = ["flag"] ∧
    ¬ ("flag" ∈ numerical_cols boolDF ∨ "flag" ∈ categorical_cols boolDF ∨
       "flag" ∈ datetime_cols boolDF) := by
  refine ⟨rfl, rfl, ?_⟩
  decide

/-- The caption (`description` key for plot records, `caption` key for
`_generate_caption` records) of a visualizations entry is non-empty. -/
def VisEntry.nonEmptyCaption : VisEntry → Prop
  | .captionRecord e => e.caption ≠ ""
  | .plotRecord r => r.description ≠ ""

theorem numericalPlotLoop_cons (llm : Llm) (col : String) (rest : List String) :
    numericalPlotLoop llm (col :: rest) =
      (VisEntry.plotRecord ⟨"Distribution of " ++ col,
          "hist_box_" ++ col ++ ".png",
          (llm (caption_prompt "Histogram and Box Plot"
            ("the numerical column \x27" ++ col ++ "\x27"))).trim⟩ ::
        (numericalPlotLoop llm rest).1,
       ("hist_box_" ++ col ++ ".png") :: (numericalPlotLoop llm rest).2.1,
       1 + (numericalPlotLoop llm rest).2.2) := rfl

theorem categoricalPlotLoop_cons (llm : Llm) (col : String) (rest : List String) :
    categoricalPlotLoop llm (col :: rest) =
      (VisEntry.plotRecord ⟨"Frequency of " ++ col,
          "countplot_" ++ col ++ ".png",
          (llm (caption_prompt "Bar Chart"
            ("the categorical column \x27" ++ col ++ "\x27"))).trim⟩ ::
        (categoricalPlotLoop llm rest).1,
       ("countplot_" ++ col ++ ".png") :: (categoricalPlotLoop llm rest).2.1,
       1 + (categoricalPlotLoop llm rest).2.2) := rfl

theorem numericalPlotLoop_entries (llm : Llm) (cols : List String) :
    ∀ e ∈ (numericalPlotLoop llm cols).1, ∃ col ∈ cols,
      e = VisEntry.plotRecord ⟨"Distribution of " ++ col,
            "hist_box_" ++ col ++ ".png",
            (llm (caption_prompt "Histogram and Box Plot"
              ("the numerical column \x27" ++ col ++ "\x27"))).trim⟩ := by
  induction cols with
  | nil => intro e he; exact absurd he (by simp [numericalPlotLoop])
  | cons col rest ih =>
    intro e he
    rw [numericalPlotLoop_cons] at he
    rcases List.mem_cons.1 he with h | h
    · exact ⟨col, List.mem_cons_self col rest, h⟩
    · obtain ⟨c, hc, hce⟩ := ih e h
      exact ⟨c, List.mem_cons_of_mem col hc, hce⟩

theorem categoricalPlotLoop_entries (llm : Llm) (cols : List String) :
    ∀ e ∈ (categoricalPlotLoop llm cols).1, ∃ col ∈ cols,
      e = VisEntry.plotRecord ⟨"Frequency of " ++ col,
            "countplot_" ++ col ++ ".png",
            (llm (caption_prompt "Bar Chart"
              ("the categorical column \x27" ++ col ++ "\x27"))).trim⟩ := by
  induction cols with
  | nil => intro e he; exact absurd he (by simp [categoricalPlotLoop])
  | cons col rest ih =>
    intro e he
    rw [categoricalPlotLoop_cons] at he
    rcases List.mem_cons.1 he with h | h
    · exact ⟨col, List.mem_cons_self col rest, h⟩
    · obtain ⟨c, hc, hce⟩ := ih e h
      exact ⟨c, List.mem_cons_of_mem col hc, hce⟩

/-- C2 (amended): every record a step appends to `visualizations` gets
its caption synthesized synchronously before the append — it is the
stripped language-model response for that plot's caption prompt.  It is
therefore non-empty whenever every model response remains non-empty
after stripping; the code itself never checks, so a whitespace-only
model response yields a record whose caption is the empty string
(`C2_counterexample`). -/
theorem C2_caption_nonempty (llm : Llm) (load : String → DataFrame)
    (s : AgentState) (ctx : Option PlotContext)
    (h : ∀ p, (llm p).trim ≠ "") :
    (∀ e ∈ (plot_univariate_numerical llm load s).newState.visualizations,
        e ∈ s.visualizations ∨ e.nonEmptyCaption) ∧
    (∀ e ∈ (plot_univariate_categorical llm load s).newState.visualizations,
        e ∈ s.visualizations ∨ e.nonEmptyCaption) ∧
    (∀ e ∈ (plot_correlation_heatmap llm load s).newState.visualizations,
        e ∈ s.visualizations ∨ e.nonEmptyCaption) ∧
    (∀ e ∈ (generate_caption llm ctx).1.visualizations, e.nonEmptyCaption) := by
  refine ⟨?_, ?_, ?_, ?_⟩
  · intro e he
    by_cases hcols : s.numerical_cols.isEmpty
    · rw [plot_univariate_numerical, if_pos hcols] at he
      exact Or.inl he
    · rw [plot_univariate_numerical, if_neg hcols] at he
      rcases List.mem_append.1 he with hin | hin
      · exact Or.inl hin
      · obtain ⟨c, -, rfl⟩ := numericalPlotLoop_entries llm s.numerical_cols e hin
        exact Or.inr (h _)
  · intro e he
    by_cases hcols : s.categorical_cols.isEmpty
    · rw [plot_univariate_categorical, if_pos hcols] at he
      exact Or.inl he
    · rw [plot_univariate_categorical, if_neg hcols] at he
      rcases List.mem_append.1 he with hin | hin
      · exact Or.inl hin
      · obtain ⟨c, -, rfl⟩ := categoricalPlotLoop_entries llm s.categorical_cols e hin
        exact Or.inr (h _)
  · intro e he
    by_cases hlen : s.numerical_cols.length < 2
    · rw [plot_correlation_heatmap, if_pos hlen] at he
      exact Or.inl he
    · rw [plot_correlation_heatmap, if_neg hlen] at he
      rcases List.mem_append.1 he with hin | hin
      · exact Or.inl hin
      · rcases List.mem_singleton.1 hin with rfl
        exact Or.inr (h _)
  · intro e he
    match ctx with
    | none => exact absurd he (by simp [generate_caption, emptyUpdate])
    | some c =>
      rcases List.mem_singleton.1 he with rfl
      exact h _

/-- A language model whose every response is empty. -/
def emptyLlm : Llm := fun _ => ""

/-- A loader returning the example dataset for every path. -/
def constLoad : String → DataFrame := fun _ => scenarioDF

/-- A state as produced by profiling a dataset with single numerical
column `age`. -/
def stateAge : AgentState :=
  ⟨"data.csv", none, ["age"], [], [], none, [], [], none⟩

theorem takeWhileAux_stop (s : String) (e : String.Pos) (p : Char → Bool)
    (i : String.Pos) (h : ¬ i < e) : Substring.takeWhileAux s e p i = i := by
  unfold Substring.takeWhileAux
  simp [h]

theorem takeRightWhileAux_stop (s : String) (b : String.Pos) (p : Char → Bool)
    (i : String.Pos) (h : ¬ b < i) : Substring.takeRightWhileAux s b p i = i := by
  unfold Substring.takeRightWhileAux
  simp [h]

theorem trim_empty : ("" : String).trim = "" := by
  have h1 : Substring.takeWhileAux "" ⟨0⟩ Char.isWhitespace ⟨0⟩ = ⟨0⟩ :=
    takeWhileAux_stop _ _ _ _ (by decide)
  have h2 : Substring.takeRightWhileAux "" ⟨0⟩ Char.isWhitespace ⟨0⟩ = ⟨0⟩ :=
    takeRightWhileAux_stop _ _ _ _ (by decide)
  have htrim : Substring.trim ⟨"", ⟨0⟩, ⟨0⟩⟩ = ⟨"", ⟨0⟩, ⟨0⟩⟩ := by
    show (let b := Substring.takeWhileAux "" ⟨0⟩ Char.isWhitespace ⟨0⟩
          let e := Substring.takeRightWhileAux "" b Char.isWhitespace ⟨0⟩
          (⟨"", b, e⟩ : Substring)) = ⟨"", ⟨0⟩, ⟨0⟩⟩
    rw [h1]
    dsimp only
    rw [h2]
  show (Substring.trim ⟨"", ⟨0⟩, ⟨0⟩⟩).toString = ""
  rw [htrim]
  rfl

theorem takeWhileAux_not (s : String) (e : String.Pos) (p : Char → Bool)
    (i : String.Pos) (h : i < e) (hp : p (s.get i) = false) :
    Substring.takeWhileAux s e p i = i := by
  unfold Substring.takeWhileAux
  simp [h, hp]

theorem takeRightWhileAux_not (s : String) (b : String.Pos) (p : Char → Bool)
    (i : String.Pos) (h : b < i) (hp : p (s.get (s.prev i)) = false) :
    Substring.takeRightWhileAux s b p i = i := by
  unfold Substring.takeRightWhileAux
  simp [h, hp]

theorem trim_ok : ("ok" : String).trim = "ok" := by
  have h1 : Substring.takeWhileAux "ok" ⟨2⟩ Char.isWhitespace ⟨0⟩ = ⟨0⟩ :=
    takeWhileAux_not _ _ _ _ (by decide) (by decide)
  have h2 : Substring.takeRightWhileAux "ok" ⟨0⟩ Char.isWhitespace ⟨2⟩ = ⟨2⟩ :=
    takeRightWhileAux_not _ _ _ _ (by decide) (by decide)
  have htrim : Substring.trim ⟨"ok", ⟨0⟩, ⟨2⟩⟩ = ⟨"ok", ⟨0⟩, ⟨2⟩⟩ := by
    show (let b := Substring.takeWhileAux "ok" ⟨2⟩ Char.isWhitespace ⟨0⟩
          let e := Substring.takeRightWhileAux "ok" b Char.isWhitespace ⟨2⟩
          (⟨"ok", b, e⟩ : Substring)) = ⟨"ok", ⟨0⟩, ⟨2⟩⟩
    rw [h1]
    dsimp only
    rw [h2]
  show (Substring.trim ⟨"ok", ⟨0⟩, ⟨2⟩⟩).toString = "ok"
  rw [htrim]
  rfl

/-- A language model whose every response is the non-blank string
`"ok"`. -/
def okLlm : Llm := fun _ => "ok"

/-- Concrete instantiation of `C2_caption_nonempty`: with a model whose
responses strip to a non-empty string, every record the plot steps
append carries a non-empty caption. -/
theorem C2_caption_nonempty_witness :
    (∀ p, (okLlm p).trim ≠ "") ∧
    ((∀ e ∈ (plot_univariate_numerical okLlm constLoad
        stateAge).newState.visualizations,
        e ∈ stateAge.visualizations ∨ e.nonEmptyCaption) ∧
     (∀ e ∈ (plot_univariate_categorical okLlm constLoad
        stateAge).newState.visualizations,
        e ∈ stateAge.visualizations ∨ e.nonEmptyCaption) ∧
     (∀ e ∈ (plot_correlation_heatmap okLlm constLoad
        stateAge).newState.visualizations,
        e ∈ stateAge.visualizations ∨ e.nonEmptyCaption) ∧
     (∀ e ∈ (generate_caption okLlm none).1.visualizations,
        e.nonEmptyCaption)) := by
  have hok : ∀ p : String, (okLlm p).trim ≠ "" := by
    intro p
    show ("ok" : String).trim ≠ ""
    rw [trim_ok]
    decide
  exact ⟨hok, C2_caption_nonempty okLlm constLoad stateAge none hok⟩

/-- C2 counterexample: with a model whose response is the empty string,
the numerical plot step appends a record whose caption (`description`)
is the empty string — the non-emptiness invariant fails at the moment
the record is appended. -/
theorem C2_counterexample :
    (plot_univariate_numerical emptyLlm constLoad stateAge).newState.visualizations =
      [VisEntry.plotRecord ⟨"Distribution of age", "hist_box_age.png", ""⟩] ∧
    ¬ (∀ e ∈ (plot_univariate_numerical emptyLlm constLoad
          stateAge).newState.visualizations, e.nonEmptyCaption) := by
  have heq : (plot_univariate_numerical emptyLlm constLoad
      stateAge).newState.visualizations =
      [VisEntry.plotRecord ⟨"Distribution of age", "hist_box_age.png",
        ("" : String).trim⟩] := rfl
  rw [trim_empty] at heq
  refine ⟨heq, fun hall => ?_⟩
  have h1 := hall (VisEntry.plotRecord
    ⟨"Distribution of age", "hist_box_age.png", ""⟩)
    (by rw [heq]; exact List.mem_singleton_self _)
  exact h1 rfl

/-- C4 (amended): the only validation `run` performs on the path is
`os.path.isfile`.  When that is false (missing path, or not a regular
file), `run` raises the typed `FileNotFoundError` (the spec's
`InvalidInputError`) carrying the actionable message, before the
dataset is loaded, the index is touched, or any plot artifact is
written.  When the path refers to an existing regular file that is not
readable, the check passes and the failure surfaces from the dataset
loader instead, as `CustomException` wrapping the loader error — still
before any plot artifact is written, but not as the typed
path-validation error the claim requires. -/
theorem C4_path_validation (isFile chromaFs : String → Bool)
    (backend : EmbedBackend) (dbQuery : Retriever)
    (load : String → Except String DataFrame) (llm : Llm)
    (file_path : String) (target_column : Option String) :
    (isFile file_path = false →
      run isFile chromaFs backend dbQuery load llm file_path target_column =
        (.error (PyError.fileNotFoundError (run_invalid_path_msg file_path)),
         [])) ∧
    (∀ e, isFile file_path = true → load file_path = .error e →
      run isFile chromaFs backend dbQuery load llm file_path target_column =
        (.error (PyError.customException e), []) ∧
      (PyError.customException e).isFileNotFound = false) := by
  constructor
  · intro h
    rw [run, if_pos h]
  · intro e htrue hload
    rw [run, if_neg (by simp [htrue]), hload]
    exact ⟨rfl, rfl⟩

/-- Concrete instantiation of `C4_path_validation`: a missing path (the
typed path-validation error) and an existing but unreadable file (the
wrapped loader error). -/
theorem C4_path_validation_witness :
    ((fun _ : String => false) "missing.csv" = false ∧
     run (fun _ => false) (fun _ => true) EmbedBackend.ok (fun _ => [])
        (fun _ => Except.ok (DataFrame.mk [] 0)) emptyLlm
        "missing.csv" none =
       (.error (PyError.fileNotFoundError (run_invalid_path_msg
          "missing.csv")), [])) ∧
    ((fun _ : String => true) "locked.csv" = true ∧
     (fun _ : String => (Except.error
        "[Errno 13] Permission denied: \x27locked.csv\x27" :
        Except String DataFrame)) "locked.csv" =
       .error "[Errno 13] Permission denied: \x27locked.csv\x27" ∧
     run (fun _ => true) (fun _ => true) EmbedBackend.ok (fun _ => [])
        (fun _ => Except.error
          "[Errno 13] Permission denied: \x27locked.csv\x27")
        emptyLlm "locked.csv" none =
       (.error (PyError.customException
          "[Errno 13] Permission denied: \x27locked.csv\x27"), []) ∧
     (PyError.customException
        "[Errno 13] Permission denied: \x27locked.csv\x27").isFileNotFound =
       false) :=
  ⟨⟨rfl, (C4_path_validation (fun _ => false) (fun _ => true)
      EmbedBackend.ok (fun _ => []) (fun _ => Except.ok (DataFrame.mk [] 0))
      emptyLlm "missing.csv" none).1 rfl⟩,
   ⟨rfl, rfl, (C4_path_validation (fun _ => true) (fun _ => true)
      EmbedBackend.ok (fun _ => [])
      (fun _ => Except.error "[Errno 13] Permission denied: \x27locked.csv\x27")
      emptyLlm "locked.csv" none).2 _ rfl rfl⟩⟩

/-- C4 counterexample: a path referring to an existing regular file
without read permission passes the `os.path.isfile` validation
(`os.path.isfile` does not check readability), so `run` does not fail
with the typed path-validation error: it fails inside `get_dataset`,
which wraps the loader's `PermissionError` in `CustomException`.  No
plot artifact is written either way. -/
theorem C4_counterexample :
    run (fun _ => true) (fun _ => true) EmbedBackend.ok (fun _ => [])
        (fun _ => Except.error
          "[Errno 13] Permission denied: \x27locked.csv\x27")
        emptyLlm "locked.csv" none =
      (.error (PyError.customException
        "[Errno 13] Permission denied: \x27locked.csv\x27"), []) ∧
    (PyError.customException
      "[Errno 13] Permission denied: \x27locked.csv\x27").isFileNotFound =
      false :=
  ⟨rfl, rfl⟩

theorem plot_univariate_numerical_spec (llm : Llm) (load : String → DataFrame)
    (s : AgentState) (h : ¬ s.numerical_cols.isEmpty = true) :
    plot_univariate_numerical llm load s =
      ⟨{ s with visualizations :=
           s.visualizations ++ (numericalPlotLoop llm s.numerical_cols).1 },
       emptyUpdate, (numericalPlotLoop llm s.numerical_cols).2.1,
       (numericalPlotLoop llm s.numerical_cols).2.2⟩ := by
  rw [plot_univariate_numerical, if_neg h]

theorem plot_univariate_categorical_spec (llm : Llm) (load : String → DataFrame)
    (s : AgentState) (h : ¬ s.categorical_cols.isEmpty = true) :
    plot_univariate_categorical llm load s =
      ⟨{ s with visualizations :=
           s.visualizations ++ (categoricalPlotLoop llm s.categorical_cols).1 },
       emptyUpdate, (categoricalPlotLoop llm s.categorical_cols).2.1,
       (categoricalPlotLoop llm s.categorical_cols).2.2⟩ := by
  rw [plot_univariate_categorical, if_neg h]

/-- C5: per-step edge cases.  Empty numerical list: the numerical step
appends nothing, writes nothing, makes no model call (its returned dict
only resets the plot context), and the correlation step is a complete
no-op; the steps are total functions, so no error is raised.  A
singleton numerical list: the correlation step is still a no-op while
the numerical step appends exactly one record and writes exactly one
artifact.  Empty categorical list: the categorical step is a complete
no-op. -/
theorem C5_step_edge_cases (llm : Llm) (load : String → DataFrame)
    (s : AgentState) :
    (s.numerical_cols = [] →
      (plot_univariate_numerical llm load s).newState.visualizations =
        s.visualizations ∧
      (plot_univariate_numerical llm load s).update.visualizations = [] ∧
      (plot_univariate_numerical llm load s).artifacts = [] ∧
      (plot_univariate_numerical llm load s).llmCalls = 0 ∧
      plot_correlation_heatmap llm load s = ⟨s, emptyUpdate, [], 0⟩) ∧
    (∀ c, s.numerical_cols = [c] →
      plot_correlation_heatmap llm load s = ⟨s, emptyUpdate, [], 0⟩ ∧
      (plot_univariate_numerical llm load s).newState.visualizations =
        s.visualizations ++
          [VisEntry.plotRecord ⟨"Distribution of " ++ c,
            "hist_box_" ++ c ++ ".png",
            (llm (caption_prompt "Histogram and Box Plot"
              ("the numerical column \x27" ++ c ++ "\x27"))).trim⟩] ∧
      (plot_univariate_numerical llm load s).artifacts =
        ["hist_box_" ++ c ++ ".png"]) ∧
    (s.categorical_cols = [] →
      plot_univariate_categorical llm load s = ⟨s, emptyUpdate, [], 0⟩) := by
  refine ⟨?_, ?_, ?_⟩
  · intro h
    have hempty : s.numerical_cols.isEmpty = true := by rw [h]; rfl
    have hlen : s.numerical_cols.length < 2 := by rw [h]; decide
    rw [plot_univariate_numerical, if_pos hempty,
      plot_correlation_heatmap, if_pos hlen]
    exact ⟨rfl, rfl, rfl, rfl, rfl⟩
  · intro c h
    have hempty : ¬ s.numerical_cols.isEmpty = true := by simp [h]
    have hlen : s.numerical_cols.length < 2 := by simp [h]
    rw [plot_correlation_heatmap, if_pos hlen,
      plot_univariate_numerical_spec llm load s hempty]
    refine ⟨rfl, ?_, ?_⟩
    · rw [h, numericalPlotLoop_cons]
      rfl
    · rw [h, numericalPlotLoop_cons]
      rfl
  · intro h
    have hempty : s.categorical_cols.isEmpty = true := by rw [h]; rfl
    rw [plot_univariate_categorical, if_pos hempty]

/-- A state as produced by profiling a dataset with no numerical and no
categorical columns. -/
def stateNoCols : AgentState :=
  ⟨"data.csv", none, [], [], [], none, [], [], none⟩

/-- Concrete instantiation of `C5_step_edge_cases`, at a state with no
numerical and no categorical columns and at a state with the single
numerical column `age`. -/
theorem C5_step_edge_cases_witness :
    ((plot_univariate_numerical emptyLlm constLoad stateNoCols).artifacts = [] ∧
     (plot_univariate_numerical emptyLlm constLoad
        stateNoCols).llmCalls = 0 ∧
     plot_correlation_heatmap emptyLlm constLoad stateNoCols =
       ⟨stateNoCols, emptyUpdate, [], 0⟩ ∧
     plot_univariate_categorical emptyLlm constLoad stateNoCols =
       ⟨stateNoCols, emptyUpdate, [], 0⟩) ∧
    (plot_correlation_heatmap emptyLlm constLoad stateAge =
       ⟨stateAge, emptyUpdate, [], 0⟩ ∧
     (plot_univariate_numerical emptyLlm constLoad stateAge).artifacts =
       ["hist_box_age.png"]) := by
  have h1 := (C5_step_edge_cases emptyLlm constLoad stateNoCols).1 rfl
  have h3 := (C5_step_edge_cases emptyLlm constLoad stateNoCols).2.2 rfl
  have h2 := (C5_step_edge_cases emptyLlm constLoad stateAge).2.1 "age" rfl
  exact ⟨⟨h1.2.2.1, h1.2.2.2.1, h1.2.2.2.2, h3⟩, ⟨h2.1, h2.2.2⟩⟩

/-- C6: invoking the caption generator on an empty pending plot context
is a no-op: it returns the empty dict, issues no language-model call,
writes nothing, and merging its returned update into the state leaves
the state unchanged. -/
theorem C6_empty_context_noop (llm : Llm) (s : AgentState)
    (h : s.current_plot_context = none) :
    generate_caption llm s.current_plot_context = (emptyUpdate, 0) ∧
    (generate_caption_node llm s).update = emptyUpdate ∧
    (generate_caption_node llm s).newState = s ∧
    (generate_caption_node llm s).llmCalls = 0 ∧
    (generate_caption_node llm s).artifacts = [] ∧
    applyUpdate (generate_caption_node llm s).newState
      (generate_caption_node llm s).update = s := by
  rw [generate_caption_node, h]
  refine ⟨rfl, rfl, rfl, rfl, rfl, ?_⟩
  cases s with
  | mk fp tc nc cc dc r ins vis ctx =>
    simp [applyUpdate, generate_caption, emptyUpdate]

/-- Concrete instantiation of `C6_empty_context_noop` at a state with an
empty plot context. -/
theorem C6_empty_context_noop_witness :
    stateNoCols.current_plot_context = none ∧
    (generate_caption emptyLlm stateNoCols.current_plot_context =
       (emptyUpdate, 0) ∧
     (generate_caption_node emptyLlm stateNoCols).update = emptyUpdate ∧
     (generate_caption_node emptyLlm stateNoCols).newState = stateNoCols ∧
     (generate_caption_node emptyLlm stateNoCols).llmCalls = 0 ∧
     (generate_caption_node emptyLlm stateNoCols).artifacts = [] ∧
     applyUpdate (generate_caption_node emptyLlm stateNoCols).newState
       (generate_caption_node emptyLlm stateNoCols).update = stateNoCols) :=
  ⟨rfl, C6_empty_context_noop emptyLlm stateNoCols rfl⟩

/-- C7: `get_retriever` is idempotent with respect to index
construction.  When the Chroma directory already exists it is opened
without rebuilding (the filesystem is unchanged and the build flag is
false), and after any successful call — including a first call that did
build — a second call performs no rebuild. -/
theorem C7_idempotent_index (p : RAGPipeline) (fs : String → Bool)
    (backend : EmbedBackend) (dbQuery : Retriever) :
    (fs p.chroma_db_path = true →
      get_retriever p fs backend dbQuery = .ok (dbQuery, fs, false)) ∧
    (∀ r fs1 built,
      get_retriever p fs backend dbQuery = .ok (r, fs1, built) →
      get_retriever p fs1 backend dbQuery = .ok (dbQuery, fs1, false)) := by
  constructor
  · intro h
    rw [get_retriever, if_pos h]
  · intro r fs1 built h
    by_cases hfs : fs p.chroma_db_path = true
    · rw [get_retriever, if_pos hfs] at h
      simp only [Except.ok.injEq, Prod.mk.injEq] at h
      obtain ⟨-, h2, -⟩ := h
      subst h2
      rw [get_retriever, if_pos hfs]
    · rw [get_retriever, if_neg hfs] at h
      cases hb : build_vector_db p backend with
      | error e => rw [hb] at h; cases h
      | ok u =>
        rw [hb] at h
        simp only [Except.ok.injEq, Prod.mk.injEq] at h
        obtain ⟨-, h2, -⟩ := h
        subst h2
        rw [get_retriever, if_pos (by simp)]

/-- Concrete instantiation of `C7_idempotent_index`: a filesystem on
which `chroma_db` already exists, and the second-call conclusion after
a first call that built the index from scratch. -/
theorem C7_idempotent_index_witness :
    ((fun _ : String => true) RAGPipeline.default.chroma_db_path = true ∧
     get_retriever RAGPipeline.default (fun _ => true) EmbedBackend.ok
       (fun _ => []) = .ok ((fun _ => []), (fun _ => true), false)) ∧
    (∀ r fs1 built,
      get_retriever RAGPipeline.default (fun _ => false) EmbedBackend.ok
        (fun _ => []) = .ok (r, fs1, built) →
      get_retriever RAGPipeline.default fs1 EmbedBackend.ok (fun _ => []) =
        .ok ((fun _ => []), fs1, false)) :=
  ⟨⟨rfl, (C7_idempotent_index RAGPipeline.default (fun _ => true)
      EmbedBackend.ok (fun _ => [])).1 rfl⟩,
   (C7_idempotent_index RAGPipeline.default (fun _ => false)
      EmbedBackend.ok (fun _ => [])).2⟩

/-- C8: the compiled graph is a fixed linear chain.  Following the
edges from the entry point visits profile → contextual insights →
numerical plots → categorical plots → correlation plot → the terminal
caption node → END; every node has exactly one outgoing edge (`edge` is
a function), the trace visits each node exactly once, and there is no
cycle (the trace is duplicate-free and terminates at END). -/
theorem C8_linear_order :
    graphTrace = [GraphNode.profile_data, GraphNode.get_contextual_insights,
      GraphNode.plot_univariate_numerical,
      GraphNode.plot_univariate_categorical,
      GraphNode.plot_correlation_heatmap,
      GraphNode.generate_caption_for_heatmap] ∧
    graphTrace.Nodup ∧
    (∀ n : GraphNode, graphTrace.count n = 1) := by
  refine ⟨rfl, ?_, ?_⟩ <;> decide

/-- C9: the two index-construction failure modes are distinguishable.
The unreachable-backend case is detected by `_check_ollama_connection`
in the agent constructor and raises `ConnectionRefusedError` with a
diagnostic directing the user to start the service (`ollama serve`);
the missing-model case is detected inside `_build_vector_db` and raises
`CustomException` wrapping the original `ValueError`, with a diagnostic
directing the user to install the named model (`ollama pull
nomic-embed-text`).  The raised errors and the diagnostics are
distinct — the two conditions are not collapsed into one generic
error. -/
theorem C9_distinct_errors (p : RAGPipeline) (vErr : String)
    (hp : p.embedding_model = "nomic-embed-text")
    (hsub : strOccurs "not found, try pulling it first" vErr = true) :
    check_ollama_connection OllamaStatus.unreachable =
      .error (PyError.connectionRefusedError "Ollama server not found.",
        some (ollama_connection_error_msg "http://localhost:11434")) ∧
    build_vector_db p (EmbedBackend.valueError vErr) =
      .error (PyError.customException vErr,
        some (model_not_found_msg p.embedding_model)) ∧
    PyError.connectionRefusedError "Ollama server not found." ≠
      PyError.customException vErr ∧
    strOccurs "ollama serve"
      (ollama_connection_error_msg "http://localhost:11434") = true ∧
    strOccurs ("ollama pull " ++ p.embedding_model)
      (model_not_found_msg p.embedding_model) = true ∧
    ollama_connection_error_msg "http://localhost:11434" ≠
      model_not_found_msg p.embedding_model := by
  refine ⟨rfl, ?_, ?_, ?_, ?_, ?_⟩
  · rw [build_vector_db, if_pos hsub]
  · intro hcontra
    cases hcontra
  · decide
  · rw [hp]
    decide
  · rw [hp]
    decide

/-- Concrete instantiation of `C9_distinct_errors` with the `ValueError`
text Ollama produces for a missing embedding model. -/
theorem C9_distinct_errors_witness :
    (RAGPipeline.default.embedding_model = "nomic-embed-text" ∧
     strOccurs "not found, try pulling it first"
       "model \"nomic-embed-text\" not found, try pulling it first" = true) ∧
    (check_ollama_connection OllamaStatus.unreachable =
      .error (PyError.connectionRefusedError "Ollama server not found.",
        some (ollama_connection_error_msg "http://localhost:11434")) ∧
     build_vector_db RAGPipeline.default (EmbedBackend.valueError
       "model \"nomic-embed-text\" not found, try pulling it first") =
      .error (PyError.customException
        "model \"nomic-embed-text\" not found, try pulling it first",
        some (model_not_found_msg RAGPipeline.default.embedding_model)) ∧
     PyError.connectionRefusedError "Ollama server not found." ≠
      PyError.customException
        "model \"nomic-embed-text\" not found, try pulling it first" ∧
     strOccurs "ollama serve"
       (ollama_connection_error_msg "http://localhost:11434") = true ∧
     strOccurs ("ollama pull " ++ RAGPipeline.default.embedding_model)
       (model_not_found_msg RAGPipeline.default.embedding_model) = true ∧
     ollama_connection_error_msg "http://localhost:11434" ≠
       model_not_found_msg RAGPipeline.default.embedding_model) :=
  ⟨⟨rfl, by decide⟩,
   C9_distinct_errors RAGPipeline.default
     "model \"nomic-embed-text\" not found, try pulling it first"
     rfl (by decide)⟩

theorem runNode_preserves_none_ctx (llm : Llm) (load : String → DataFrame)
    (n : GraphNode) (s : AgentState) (h : s.current_plot_context = none) :
    (applyUpdate (runNode llm load n s).newState
      (runNode llm load n s).update).current_plot_context = none := by
  cases n with
  | profile_data => simp [runNode, profile_data_node, applyUpdate, h]
  | get_contextual_insights =>
    cases hr : s.retriever <;>
      simp [runNode, get_contextual_insights, hr, applyUpdate, h]
  | plot_univariate_numerical =>
    by_cases hc : s.numerical_cols.isEmpty = true
    · simp [runNode, plot_univariate_numerical, hc, applyUpdate]
    · simp [runNode, plot_univariate_numerical, hc, applyUpdate, h,
        emptyUpdate]
  | plot_univariate_categorical =>
    by_cases hc : s.categorical_cols.isEmpty = true
    · simp [runNode, plot_univariate_categorical, hc, applyUpdate, h,
        emptyUpdate]
    · simp [runNode, plot_univariate_categorical, hc, applyUpdate, h,
        emptyUpdate]
  | plot_correlation_heatmap =>
    by_cases hc : s.numerical_cols.length < 2
    · simp [runNode, plot_correlation_heatmap, hc, applyUpdate, h,
        emptyUpdate]
    · simp [runNode, plot_correlation_heatmap, hc, applyUpdate, h,
        emptyUpdate]
  | generate_caption_for_heatmap =>
    simp [runNode, generate_caption_node, generate_caption, h, applyUpdate,
      emptyUpdate]

theorem execNodes_preserves_none_ctx (llm : Llm) (load : String → DataFrame)
    (nodes : List GraphNode) :
    ∀ s : AgentState, s.current_plot_context = none →
      (execNodes llm load nodes s).1.current_plot_context = none := by
  induction nodes with
  | nil => intro s h; exact h
  | cons n rest ih =>
    intro s h
    exact ih _ (runNode_preserves_none_ctx llm load n s h)

/-- C10: starting from the initial state (whose plot context is the
empty dict), the shared `current_plot_context` stays empty after every
prefix of the graph's execution — no node ever returns a non-empty
context into the shared state, because the plot steps call the caption
generator directly with locally built contexts.  Consequently the
terminal `generate_caption_for_heatmap` node is a no-op: it returns the
empty update (appending no visualization) and issues no language-model
call. -/
theorem C10_context_stays_empty (llm : Llm) (load : String → DataFrame)
    (s0 : AgentState) (h : s0.current_plot_context = none) :
    (∀ k : Nat, (execNodes llm load (graphTrace.take k)
        s0).1.current_plot_context = none) ∧
    (generate_caption_node llm (execNodes llm load (graphTrace.take 5)
        s0).1).update = emptyUpdate ∧
    (generate_caption_node llm (execNodes llm load (graphTrace.take 5)
        s0).1).llmCalls = 0 := by
  have h5 := execNodes_preserves_none_ctx llm load (graphTrace.take 5) s0 h
  refine ⟨fun k => execNodes_preserves_none_ctx llm load _ s0 h, ?_, ?_⟩ <;>
    simp [generate_caption_node, generate_caption, h5]

/-- Concrete instantiation of `C10_context_stays_empty` at the initial
state `run` seeds. -/
theorem C10_context_stays_empty_witness :
    stateNoCols.current_plot_context = none ∧
    (execNodes emptyLlm constLoad (graphTrace.take 3)
        stateNoCols).1.current_plot_context = none ∧
    (generate_caption_node emptyLlm (execNodes emptyLlm constLoad
        (graphTrace.take 5) stateNoCols).1).update = emptyUpdate ∧
    (generate_caption_node emptyLlm (execNodes emptyLlm constLoad
        (graphTrace.take 5) stateNoCols).1).llmCalls = 0 :=
  ⟨rfl,
   (C10_context_stays_empty emptyLlm constLoad stateNoCols rfl).1 3,
   (C10_context_stays_empty emptyLlm constLoad stateNoCols rfl).2.1,
   (C10_context_stays_empty emptyLlm constLoad stateNoCols rfl).2.2⟩

/-- C3: an empty dataset (0 rows, 0 columns) runs to completion without
error: profiling yields three empty lists, no visualization record is
produced, no artifact is written, and `run` returns a summary with
`rows = 0` and `columns = 0`. -/
theorem C3_empty_dataset (isFile chromaFs : String → Bool)
    (backend : EmbedBackend) (dbQuery : Retriever)
    (load : String → Except String DataFrame) (llm : Llm)
    (path : String) (target : Option String)
    (hfile : isFile path = true)
    (hchroma : chromaFs "chroma_db" = true)
    (hload : load path = .ok ⟨[], 0⟩) :
    profile_data_for_plotting ⟨[], 0⟩ = ([], [], []) ∧
    run isFile chromaFs backend dbQuery load llm path target =
      (.ok ⟨⟨0, 0⟩, []⟩, []) := by
  refine ⟨rfl, ?_⟩
  have hchroma2 : chromaFs RAGPipeline.default.chroma_db_path = true := hchroma
  rw [run, if_neg (by simp [hfile]), hload, get_retriever, if_pos hchroma2]
  simp only [graphTrace, traceFrom, edge, entry_point, execNodes, runNode,
    profile_data_node, get_contextual_insights, applyUpdate,
    numerical_cols, categorical_cols, datetime_cols,
    plot_univariate_numerical, plot_univariate_categorical,
    plot_correlation_heatmap, generate_caption_node, generate_caption,
    emptyUpdate, List.filter_nil, List.map_nil, Option.getD,
    List.append_nil, List.nil_append, List.isEmpty_nil, if_true,
    List.length_nil]
  rfl

/-- Concrete instantiation of `C3_empty_dataset`: every abstract input
fixed, the dataset loader returning the 0-row 0-column frame. -/
theorem C3_empty_dataset_witness :
    ((fun _ : String => true) "empty.csv" = true ∧
     (fun _ : String => true) "chroma_db" = true ∧
     (fun _ : String => (Except.ok (DataFrame.mk [] 0) :
        Except String DataFrame)) "empty.csv" = .ok ⟨[], 0⟩) ∧
    (profile_data_for_plotting ⟨[], 0⟩ = ([], [], []) ∧
     run (fun _ => true) (fun _ => true) EmbedBackend.ok (fun _ => [])
       (fun _ => Except.ok (DataFrame.mk [] 0)) emptyLlm "empty.csv" none =
      (.ok ⟨⟨0, 0⟩, []⟩, [])) :=
  ⟨⟨rfl, rfl, rfl⟩,
   C3_empty_dataset (fun _ => true) (fun _ => true) EmbedBackend.ok
     (fun _ => []) (fun _ => Except.ok (DataFrame.mk [] 0)) emptyLlm
     "empty.csv" none rfl rfl rfl⟩

end VisionAI
